import Mathlib

/-!
Verification of the query parser/matcher and the layout-parameter mapping of
the obsidian-supergraph repository.

The embedding follows two source files:
* src/src/settings.ts — the graph search module: SearchTerm, parseQuery,
  termMatches, matchesQuery.
* src/src/SupergraphView.ts — PHYSICS constants, DisplaySettings /
  ForceSettings with their defaults, the force computation at the top of
  startForceLayout, and the per-slider reset actions of createSlider.

parseQuery in the source tokenizes with the JavaScript regex
  (-)?(?:(tag|path):)?(?:"([^"]*)"|(\S+))
run with exec in a loop.  The embedding below reproduces the regex engine's
leftmost-match search and its backtracking over the two optional groups
(the leading minus and the tag:/path: marker): each optional group is tried
greedily first and dropped when the remainder of the pattern cannot match.
Character classes are simplified to ASCII (the source strings in play are
ASCII): the whitespace class is the ASCII one and lowercasing is
Char.toLower, which only maps the basic latin letters.
-/

namespace Supergraph

/-- The three term kinds of the search language (settings.ts, SearchTermType). -/
inductive SearchTermType where
  | text
  | tag
  | path
deriving DecidableEq

/-- A parsed search term (settings.ts, interface SearchTerm). -/
structure SearchTerm where
  type : SearchTermType
  value : String
  negated : Bool
deriving DecidableEq

/-- The tag:/path: marker that can precede a token value (capture group 2 of
the tokenizing regex). -/
inductive MarkerKind where
  | tag
  | path
deriving DecidableEq

/-- ASCII part of the JavaScript whitespace class matched by the backslash-s
escape in the tokenizing regex. -/
def isSpaceJS (c : Char) : Bool :=
  c = ' ' || c = '\t' || c = '\n' || c = '\r' || c = '\x0b' || c = '\x0c'

/-- Scan for the first double quote: returns the characters before it and the
characters after it, or none when no quote occurs.  This is how the quoted
alternative of the regex finds its closing quote. -/
def splitAtQuote : List Char → Option (List Char × List Char)
  | [] => none
  | c :: t =>
    if c = '"' then some ([], t)
    else
      match splitAtQuote t with
      | some (v, r) => some (c :: v, r)
      | none => none

/-- The maximal run of non-whitespace characters at the head of the input:
what the greedy one-or-more non-space alternative of the regex consumes. -/
def takeRun (l : List Char) : List Char :=
  l.takeWhile fun c => !(isSpaceJS c)

/-- The input with its leading non-whitespace run removed. -/
def dropRun (l : List Char) : List Char :=
  l.dropWhile fun c => !(isSpaceJS c)

/-- Match the value part of the regex at the current position: first try the
quoted alternative (an opening quote with a closing quote somewhere after
it), then the greedy non-whitespace run.  Returns the two capture groups
(quoted value, unquoted value) and the rest of the input.  An opening quote
that is never closed falls through to the unquoted alternative, which
accepts it as an ordinary non-space character. -/
def matchValue (l : List Char) : Option (Option (List Char) × Option (List Char) × List Char) :=
  match l with
  | [] => none
  | c :: t =>
    if c = '"' then
      match splitAtQuote t with
      | some (v, r) => some (some v, none, r)
      | none => some (none, some (takeRun (c :: t)), dropRun (c :: t))
    else if isSpaceJS c then none
    else some (none, some (takeRun (c :: t)), dropRun (c :: t))

/-- Match the optional tag:/path: marker followed by the value part.  The
marker group is optional: when the literal marker is present but no value
can follow it, the regex backtracks and retries without the marker. -/
def matchMarked (l : List Char) :
    Option (Option MarkerKind × Option (List Char) × Option (List Char) × List Char) :=
  if l.take 4 = ['t', 'a', 'g', ':'] then
    match matchValue (l.drop 4) with
    | some (q, u, r) => some (some MarkerKind.tag, q, u, r)
    | none => (matchValue l).map fun (q, u, r) => (none, q, u, r)
  else if l.take 5 = ['p', 'a', 't', 'h', ':'] then
    match matchValue (l.drop 5) with
    | some (q, u, r) => some (some MarkerKind.path, q, u, r)
    | none => (matchValue l).map fun (q, u, r) => (none, q, u, r)
  else
    (matchValue l).map fun (q, u, r) => (none, q, u, r)

/-- Match the whole token regex at the current position.  The leading minus
group is optional and greedy: it is taken when the rest of the pattern can
still match, and dropped otherwise (so a lone minus is consumed by the
non-whitespace run with the negation group empty, exactly as the regex
engine backtracks). -/
def matchAt (l : List Char) :
    Option (Bool × Option MarkerKind × Option (List Char) × Option (List Char) × List Char) :=
  match l with
  | [] => none
  | c :: t =>
    if c = '-' then
      match matchMarked t with
      | some (p, q, u, r) => some (true, p, q, u, r)
      | none => (matchMarked (c :: t)).map fun (p, q, u, r) => (false, p, q, u, r)
    else
      (matchMarked (c :: t)).map fun (p, q, u, r) => (false, p, q, u, r)

/-- Lowercasing of a string, as the source applies value.toLowerCase() and
path.toLowerCase(); on the ASCII inputs in play this is Char.toLower on
every character. -/
def toLowerStr (s : String) : String :=
  String.mk (s.data.map Char.toLower)

/-- The body of the parseQuery loop for one regex match: pick the quoted
capture when it participated, otherwise the unquoted one, lowercase it, and
materialize a term unless the value is empty (settings.ts lines 74-93). -/
def mkTerm (negated : Bool) (marker : Option MarkerKind)
    (quotedValue unquotedValue : Option (List Char)) : Option SearchTerm :=
  let value0 : List Char :=
    match quotedValue with
    | some v => v
    | none => unquotedValue.getD []
  let value : List Char := value0.map Char.toLower
  if value = [] ∧ marker = none then none
  else
    match marker with
    | some MarkerKind.tag =>
      if value ≠ [] then some { type := SearchTermType.tag, value := String.mk value, negated := negated } else none
    | some MarkerKind.path =>
      if value ≠ [] then some { type := SearchTermType.path, value := String.mk value, negated := negated } else none
    | none =>
      if value ≠ [] then some { type := SearchTermType.text, value := String.mk value, negated := negated } else none

/-- The exec loop of parseQuery: repeatedly find the next regex match (the
engine advances one character when no match starts at the current position)
and push the term the loop body builds, if any.  The fuel argument bounds
the recursion; every step consumes at least one character, so fuel equal to
the input length never runs out before the input does. -/
def scanTokens : Nat → List Char → List SearchTerm
  | 0, _ => []
  | _ + 1, [] => []
  | fuel + 1, c :: t =>
    match matchAt (c :: t) with
    | some (neg, marker, q, u, r) =>
      match mkTerm neg marker q u with
      | some term => term :: scanTokens fuel r
      | none => scanTokens fuel r
    | none => scanTokens fuel t

/-- settings.ts, parseQuery: parse a search query string into terms. -/
def parseQuery (query : String) : List SearchTerm :=
  scanTokens query.data.length query.data

/-- JavaScript String.prototype.includes: substring test (used by
termMatches for every comparison). -/
def includes (s sub : String) : Bool :=
  decide (sub.data <:+: s.data)

/-- settings.ts, termMatches: whether a single term matches the file's
lowercased path, aliases and tags. -/
def termMatches (term : SearchTerm) (filePath : String)
    (aliases tags : List String) : Bool :=
  let value := term.value
  match term.type with
  | SearchTermType.tag => tags.any fun tag => includes tag value
  | SearchTermType.path => includes filePath value
  | SearchTermType.text =>
    if includes filePath value then true
    else if aliases.any fun al => includes al value then true
    else false

/-- The searchable view of a file that matchesQuery consumes: the file path
together with the outputs of extractAliases and extractTags (which the
source already lowercases and strips of the hash marker). -/
structure SearchableDocument where
  path : String
  aliases : List String
  tags : List String
deriving DecidableEq

/-- The for-loop of matchesQuery: a negated term that matches excludes the
file at once, a positive term that fails excludes it at once. -/
def matchLoop (filePath : String) (aliases tags : List String) :
    List SearchTerm → Bool
  | [] => true
  | term :: rest =>
    let m := termMatches term filePath aliases tags
    if term.negated then
      if m then false else matchLoop filePath aliases tags rest
    else
      if m then matchLoop filePath aliases tags rest else false

/-- settings.ts, matchesQuery: an empty term list matches everything,
otherwise the path is lowercased and every term is checked in order. -/
def matchesQuery (file : SearchableDocument) (terms : List SearchTerm) : Bool :=
  if terms.length = 0 then true
  else matchLoop (toLowerStr file.path) file.aliases file.tags terms

/-! Embedding of the layout-parameter model of src/src/SupergraphView.ts. -/

/-- The PHYSICS constant table of SupergraphView.ts. -/
structure PhysicsConstants where
  ALPHA_START : ℝ
  ALPHA_MIN : ℝ
  ALPHA_DECAY : ℝ
  ALPHA_TARGET : ℝ
  VELOCITY_DECAY : ℝ
  REPEL_MULTIPLIER : ℝ
  CENTER_MULTIPLIER : ℝ
  LINK_STRENGTH_MULTIPLIER : ℝ
  COLLIDE_RADIUS_MULTIPLIER : ℝ
  MANY_BODY_DISTANCE_MIN : ℝ
  MANY_BODY_DISTANCE_MAX : ℝ
  MIN_LINK_DISTANCE : ℝ
  COLLIDE_STRENGTH : ℝ
  INITIAL_SPREAD : ℝ
  FIT_PADDING : ℝ
  DEFAULT_WIDTH : ℝ
  DEFAULT_HEIGHT : ℝ

/-- SupergraphView.ts, const PHYSICS. -/
def PHYSICS : PhysicsConstants where
  ALPHA_START := 1
  ALPHA_MIN := 0.01
  ALPHA_DECAY := 0.02
  ALPHA_TARGET := 0
  VELOCITY_DECAY := 0.4
  REPEL_MULTIPLIER := 60
  CENTER_MULTIPLIER := 0.3
  LINK_STRENGTH_MULTIPLIER := 0.3
  COLLIDE_RADIUS_MULTIPLIER := 2
  MANY_BODY_DISTANCE_MIN := 10
  MANY_BODY_DISTANCE_MAX := 1000
  MIN_LINK_DISTANCE := 30
  COLLIDE_STRENGTH := 1
  INITIAL_SPREAD := 40
  FIT_PADDING := 50
  DEFAULT_WIDTH := 800
  DEFAULT_HEIGHT := 600

/-- SupergraphView.ts, interface DisplaySettings. -/
structure DisplaySettings where
  nodeSize : ℝ
  linkThickness : ℝ
  showArrows : Bool
  showOrphans : Bool
  cardWidth : ℝ
  cardHeight : ℝ
  snippetLength : ℝ

/-- SupergraphView.ts, interface ForceSettings. -/
structure ForceSettings where
  centerForce : ℝ
  repelForce : ℝ
  linkForce : ℝ
  linkDistance : ℝ

/-- SupergraphView.ts, const DEFAULT_DISPLAY. -/
def DEFAULT_DISPLAY : DisplaySettings where
  nodeSize := 15
  linkThickness := 3
  showArrows := true
  showOrphans := true
  cardWidth := 200
  cardHeight := 120
  snippetLength := 150

/-- SupergraphView.ts, const DEFAULT_FORCES. -/
def DEFAULT_FORCES : ForceSettings where
  centerForce := 0.3
  repelForce := 30
  linkForce := 0.3
  linkDistance := 100

/-- The concrete layout parameters handed to the d3-force layout. -/
structure LayoutParams where
  repelStrength : ℝ
  linkDistance : ℝ
  linkStrength : ℝ
  centerStrength : ℝ
  collideRadius : ℝ

/-- The parameter computation at the top of startForceLayout
(SupergraphView.ts lines 882-897): scale the user sliders by the PHYSICS
multipliers, clamp the link distance from below, and derive the collision
radius from the card diagonal. -/
noncomputable def startForceLayoutParams (forces : ForceSettings)
    (display : DisplaySettings) : LayoutParams where
  repelStrength := -forces.repelForce * PHYSICS.REPEL_MULTIPLIER
  linkDistance := max forces.linkDistance PHYSICS.MIN_LINK_DISTANCE
  linkStrength := forces.linkForce * PHYSICS.LINK_STRENGTH_MULTIPLIER
  centerStrength := forces.centerForce * PHYSICS.CENTER_MULTIPLIER
  collideRadius := Real.sqrt (display.cardWidth ^ 2 + display.cardHeight ^ 2) / 2

/-! The slider onChange closures each overwrite exactly one settings field
(SupergraphView.ts, the createSlider call sites), and the reset button of a
slider invokes that same closure at the slider's default value
(SupergraphView.ts lines 472-483). -/

/-- onChange of the Card width slider. -/
def setCardWidth (d : DisplaySettings) (val : ℝ) : DisplaySettings :=
  { d with cardWidth := val }

/-- onChange of the Card height slider. -/
def setCardHeight (d : DisplaySettings) (val : ℝ) : DisplaySettings :=
  { d with cardHeight := val }

/-- onChange of the Snippet length slider. -/
def setSnippetLength (d : DisplaySettings) (val : ℝ) : DisplaySettings :=
  { d with snippetLength := val }

/-- onChange of the Link thickness slider. -/
def setLinkThickness (d : DisplaySettings) (val : ℝ) : DisplaySettings :=
  { d with linkThickness := val }

/-- onChange of the Center force slider. -/
def setCenterForce (f : ForceSettings) (val : ℝ) : ForceSettings :=
  { f with centerForce := val }

/-- onChange of the Repel force slider. -/
def setRepelForce (f : ForceSettings) (val : ℝ) : ForceSettings :=
  { f with repelForce := val }

/-- onChange of the Link force slider. -/
def setLinkForce (f : ForceSettings) (val : ℝ) : ForceSettings :=
  { f with linkForce := val }

/-- onChange of the Link distance slider. -/
def setLinkDistance (f : ForceSettings) (val : ℝ) : ForceSettings :=
  { f with linkDistance := val }

/-- Reset button of the Card width slider: onChange at the default. -/
def resetCardWidth (d : DisplaySettings) : DisplaySettings :=
  setCardWidth d DEFAULT_DISPLAY.cardWidth

/-- Reset button of the Card height slider: onChange at the default. -/
def resetCardHeight (d : DisplaySettings) : DisplaySettings :=
  setCardHeight d DEFAULT_DISPLAY.cardHeight

/-- Reset button of the Snippet length slider: onChange at the default. -/
def resetSnippetLength (d : DisplaySettings) : DisplaySettings :=
  setSnippetLength d DEFAULT_DISPLAY.snippetLength

/-- Reset button of the Link thickness slider: onChange at the default. -/
def resetLinkThickness (d : DisplaySettings) : DisplaySettings :=
  setLinkThickness d DEFAULT_DISPLAY.linkThickness

/-- Reset button of the Center force slider: onChange at the default. -/
def resetCenterForce (f : ForceSettings) : ForceSettings :=
  setCenterForce f DEFAULT_FORCES.centerForce

/-- Reset button of the Repel force slider: onChange at the default. -/
def resetRepelForce (f : ForceSettings) : ForceSettings :=
  setRepelForce f DEFAULT_FORCES.repelForce

/-- Reset button of the Link force slider: onChange at the default. -/
def resetLinkForce (f : ForceSettings) : ForceSettings :=
  setLinkForce f DEFAULT_FORCES.linkForce

/-- Reset button of the Link distance slider: onChange at the default. -/
def resetLinkDistance (f : ForceSettings) : ForceSettings :=
  setLinkDistance f DEFAULT_FORCES.linkDistance

/-! Helper lemmas. -/

/-- Any term materialized by the loop body has a non-empty value, and that
value is the lowercasing of some raw capture. -/
theorem mkTerm_value {n : Bool} {m : Option MarkerKind} {q u : Option (List Char)}
    {t : SearchTerm} (h : mkTerm n m q u = some t) :
    t.value.data ≠ [] ∧ ∃ raw : List Char, t.value.data = raw.map Char.toLower := by
  simp only [mkTerm] at h
  split at h
  · exact absurd h (by simp)
  · split at h
    · split at h
      · rename_i hne
        obtain rfl := Option.some.inj h
        exact ⟨hne, _, rfl⟩
      · exact absurd h (by simp)
    · split at h
      · rename_i hne
        obtain rfl := Option.some.inj h
        exact ⟨hne, _, rfl⟩
      · exact absurd h (by simp)
    · split at h
      · rename_i hne
        obtain rfl := Option.some.inj h
        exact ⟨hne, _, rfl⟩
      · exact absurd h (by simp)

/-- Every term the scan produces comes from a successful loop-body step. -/
theorem scanTokens_mem : ∀ (fuel : Nat) (l : List Char) (t : SearchTerm),
    t ∈ scanTokens fuel l →
    ∃ n m q u, mkTerm n m q u = some t
  | 0, _, t, h => by simp [scanTokens] at h
  | _ + 1, [], t, h => by simp [scanTokens] at h
  | fuel + 1, c :: l, t, h => by
    simp only [scanTokens] at h
    cases h1 : matchAt (c :: l) with
    | none =>
      rw [h1] at h
      exact scanTokens_mem fuel l t h
    | some m =>
      obtain ⟨neg, marker, q, u, r⟩ := m
      rw [h1] at h
      dsimp only at h
      cases h2 : mkTerm neg marker q u with
      | none =>
        rw [h2] at h
        exact scanTokens_mem fuel r t h
      | some term =>
        rw [h2] at h
        rcases List.mem_cons.mp h with rfl | hmem
        · exact ⟨neg, marker, q, u, h2⟩
        · exact scanTokens_mem fuel r t hmem

/-- The scan produces at most one term per unit of fuel, so parsing a query
yields at most one term per input character: the parser always terminates
with a bounded result. -/
theorem scanTokens_length_le : ∀ (fuel : Nat) (l : List Char),
    (scanTokens fuel l).length ≤ fuel
  | 0, _ => by simp [scanTokens]
  | _ + 1, [] => by simp [scanTokens]
  | fuel + 1, c :: l => by
    simp only [scanTokens]
    cases h1 : matchAt (c :: l) with
    | none => exact Nat.le_succ_of_le (scanTokens_length_le fuel l)
    | some m =>
      obtain ⟨neg, marker, q, u, r⟩ := m
      dsimp only
      cases h2 : mkTerm neg marker q u with
      | none => exact Nat.le_succ_of_le (scanTokens_length_le fuel r)
      | some term => simpa using Nat.succ_le_succ (scanTokens_length_le fuel r)

/-- The substring test is the list-infix relation on the characters. -/
theorem includes_eq_true_iff (s sub : String) :
    includes s sub = true ↔ sub.data <:+: s.data := by
  simp [includes]

/-- The matchesQuery loop succeeds exactly when every positive term matches
and no negated term matches. -/
theorem matchLoop_eq_true_iff (fp : String) (a g : List String) :
    ∀ ts : List SearchTerm, matchLoop fp a g ts = true ↔
      ∀ t ∈ ts, (t.negated = false → termMatches t fp a g = true) ∧
        (t.negated = true → termMatches t fp a g = false) := by
  intro ts
  induction ts with
  | nil => simp [matchLoop]
  | cons term rest ih =>
    simp only [matchLoop, List.forall_mem_cons]
    cases hn : term.negated <;> cases hm : termMatches term fp a g <;>
      simp [hn, hm, ih]

/-- matchesQuery succeeds exactly when every positive term matches the
lowercased path / aliases / tags and no negated term does. -/
theorem matchesQuery_eq_true_iff (d : SearchableDocument) (ts : List SearchTerm) :
    matchesQuery d ts = true ↔
      ∀ t ∈ ts,
        (t.negated = false → termMatches t (toLowerStr d.path) d.aliases d.tags = true) ∧
        (t.negated = true → termMatches t (toLowerStr d.path) d.aliases d.tags = false) := by
  cases ts with
  | nil => simp [matchesQuery]
  | cons a l =>
    simp only [matchesQuery, List.length_cons]
    rw [if_neg (by simp)]
    exact matchLoop_eq_true_iff _ _ _ _

/-! Claim theorems. -/

/-- Claim C1, counterexample: the claim says a bare minus token is silently
elided and that parsing the one-character minus query yields no term, but
the tokenizing regex backtracks over the optional negation group and
consumes the minus as an ordinary non-whitespace value, so parsing it
yields one text term. -/
theorem parseQuery_bare_dash_counterexample :
    parseQuery "-" = [{ type := SearchTermType.text, value := "-", negated := false }] ∧
    parseQuery "-" ≠ [] :=
  ⟨by decide, by decide⟩

/-- Claim C1 (amended): parsing never fails and is bounded — every query
yields at most one term per input character — and an empty quoted token and
an empty quoted tag value produce no term; but a bare minus token is kept
as the text term whose value is the minus sign, a bare empty tag marker is
kept as the text term whose value is the marker itself, and an
unterminated-quote fragment is kept as a text term retaining the quote
character. -/
theorem parseQuery_malformed_amended :
    parseQuery "tag:\"\"" = [] ∧
    parseQuery "\"\"" = [] ∧
    parseQuery "-" = [{ type := SearchTermType.text, value := "-", negated := false }] ∧
    parseQuery "tag:" = [{ type := SearchTermType.text, value := "tag:", negated := false }] ∧
    parseQuery "\"abc" = [{ type := SearchTermType.text, value := "\"abc", negated := false }] ∧
    ∀ q : String, (parseQuery q).length ≤ q.data.length :=
  ⟨by decide, by decide, by decide, by decide, by decide,
   fun _ => scanTokens_length_le _ _⟩

/-- Claim C2: per-term matching — a tag term matches exactly when some tag
of the document contains the value as a substring, a path term exactly when
the path contains it, and a text term exactly when the path or some alias
contains it (tags are not consulted for text terms). -/
theorem termMatches_spec (term : SearchTerm) (filePath : String)
    (aliases tags : List String) :
    (term.type = SearchTermType.tag →
      (termMatches term filePath aliases tags = true ↔
        ∃ tag ∈ tags, term.value.data <:+: tag.data)) ∧
    (term.type = SearchTermType.path →
      (termMatches term filePath aliases tags = true ↔
        term.value.data <:+: filePath.data)) ∧
    (term.type = SearchTermType.text →
      (termMatches term filePath aliases tags = true ↔
        (term.value.data <:+: filePath.data ∨
          ∃ al ∈ aliases, term.value.data <:+: al.data))) := by
  refine ⟨fun hty => ?_, fun hty => ?_, fun hty => ?_⟩ <;>
    simp [termMatches, hty, includes, List.any_eq_true]

/-- Witness for claim C2 at concrete inputs: the tag term with value pro
matches a document carrying the tag project, and fails against a document
whose only tag is xyz. -/
theorem termMatches_spec_witness :
    termMatches { type := SearchTermType.tag, value := "pro", negated := false }
      "x" [] ["project"] = true ∧
    termMatches { type := SearchTermType.tag, value := "pro", negated := false }
      "x" [] ["xyz"] = false :=
  ⟨((termMatches_spec { type := SearchTermType.tag, value := "pro", negated := false }
      "x" [] ["project"]).1 rfl).mpr (by decide),
   by decide⟩

/-- Claim C3: matchesQuery succeeds exactly when every positive term matches
and no negated term matches; the empty sequence matches every document, and
a negated term that matches forces the result to false. -/
theorem matchesQuery_spec (d : SearchableDocument) (terms : List SearchTerm) :
    (matchesQuery d terms = true ↔
      ∀ t ∈ terms,
        (t.negated = false → termMatches t (toLowerStr d.path) d.aliases d.tags = true) ∧
        (t.negated = true → termMatches t (toLowerStr d.path) d.aliases d.tags = false)) ∧
    matchesQuery d [] = true ∧
    (∀ t ∈ terms, t.negated = true →
      termMatches t (toLowerStr d.path) d.aliases d.tags = true →
      matchesQuery d terms = false) := by
  refine ⟨matchesQuery_eq_true_iff d terms, by simp [matchesQuery], ?_⟩
  intro t ht hneg hmatch
  cases hq : matchesQuery d terms with
  | false => rfl
  | true =>
    have h2 := ((matchesQuery_eq_true_iff d terms).mp hq t ht).2 hneg
    rw [hmatch] at h2
    exact absurd h2 (by decide)

/-- Witness for claim C3 at concrete inputs: a matching negated path term
excludes the document even though the positive text term matches. -/
theorem matchesQuery_spec_witness :
    matchesQuery { path := "Notes/Archive/x.md", aliases := [], tags := [] }
      [{ type := SearchTermType.path, value := "archive", negated := true },
       { type := SearchTermType.text, value := "notes", negated := false }] = false :=
  (matchesQuery_spec { path := "Notes/Archive/x.md", aliases := [], tags := [] }
      [{ type := SearchTermType.path, value := "archive", negated := true },
       { type := SearchTermType.text, value := "notes", negated := false }]).2.2
    { type := SearchTermType.path, value := "archive", negated := true }
    (by decide) rfl (by decide)

/-- Claim C4: parsing is deterministic (it is a function), returns terms in
left-to-right token order, preserves duplicates, sends the empty query to
the empty sequence, and parses the documented example query to exactly its
three documented terms in order. -/
theorem parseQuery_examples :
    parseQuery "" = [] ∧
    parseQuery "foo tag:\"my project\" -path:\"archive\"" =
      [{ type := SearchTermType.text, value := "foo", negated := false },
       { type := SearchTermType.tag, value := "my project", negated := false },
       { type := SearchTermType.path, value := "archive", negated := true }] ∧
    parseQuery "foo foo" =
      [{ type := SearchTermType.text, value := "foo", negated := false },
       { type := SearchTermType.text, value := "foo", negated := false }] :=
  ⟨by decide, by decide, by decide⟩

/-- Claim C5: matching is case-insensitive — parsing the upper-case query
FOO gives the same terms as parsing foo, hence the same match result on
every document, and every stored term value is the lowercasing of some raw
capture. -/
theorem parseQuery_case_insensitive :
    parseQuery "FOO" = parseQuery "foo" ∧
    (∀ d : SearchableDocument,
      matchesQuery d (parseQuery "FOO") = matchesQuery d (parseQuery "foo")) ∧
    ∀ q : String, ∀ t ∈ parseQuery q,
      ∃ raw : List Char, t.value.data = raw.map Char.toLower := by
  refine ⟨by decide, ?_, ?_⟩
  · intro d
    rw [show parseQuery "FOO" = parseQuery "foo" by decide]
  · intro q t ht
    obtain ⟨n, m, qv, uv, hmk⟩ := scanTokens_mem _ _ t ht
    exact (mkTerm_value hmk).2

/-- Witness for claim C5 at a concrete input: the mixed-case query AbC
parses to a term whose value is stored lowercased. -/
theorem parseQuery_case_insensitive_witness :
    ({ type := SearchTermType.text, value := "abc", negated := false } : SearchTerm) ∈
      parseQuery "AbC" ∧
    ∃ raw : List Char,
      ({ type := SearchTermType.text, value := "abc", negated := false } : SearchTerm).value.data =
        raw.map Char.toLower :=
  ⟨by decide,
   parseQuery_case_insensitive.2.2 "AbC"
     { type := SearchTermType.text, value := "abc", negated := false } (by decide)⟩

/-- Claim C6: every term the parser returns has a non-empty value; a term
with an empty value is never materialized. -/
theorem parseQuery_value_nonempty (q : String) :
    ∀ t ∈ parseQuery q, t.value ≠ "" := by
  intro t ht hempty
  have h1 := (mkTerm_value (scanTokens_mem _ _ t ht).choose_spec.choose_spec.choose_spec.choose_spec).1
  rw [hempty] at h1
  exact h1 rfl

/-- Witness for claim C6 at a concrete input. -/
theorem parseQuery_value_nonempty_witness :
    ({ type := SearchTermType.text, value := "foo", negated := false } : SearchTerm) ∈
      parseQuery "foo" ∧
    ({ type := SearchTermType.text, value := "foo", negated := false } : SearchTerm).value ≠ "" :=
  ⟨by decide,
   parseQuery_value_nonempty "foo"
     { type := SearchTermType.text, value := "foo", negated := false } (by decide)⟩

/-- Claim C7: the layout parameters are the documented formulas — repulsion
is the negated repel slider scaled by 60, link distance is floored at 30,
link and center strengths are their sliders scaled by 0.3, and the
collision radius is half the card diagonal; consequently a zero repel
slider gives zero repulsion and a link distance below the floor clamps to
exactly 30. -/
theorem startForceLayoutParams_spec (forces : ForceSettings) (display : DisplaySettings) :
    (startForceLayoutParams forces display).repelStrength =
      -forces.repelForce * PHYSICS.REPEL_MULTIPLIER ∧
    (startForceLayoutParams forces display).linkDistance =
      max forces.linkDistance PHYSICS.MIN_LINK_DISTANCE ∧
    (startForceLayoutParams forces display).linkStrength =
      forces.linkForce * PHYSICS.LINK_STRENGTH_MULTIPLIER ∧
    (startForceLayoutParams forces display).centerStrength =
      forces.centerForce * PHYSICS.CENTER_MULTIPLIER ∧
    (startForceLayoutParams forces display).collideRadius =
      Real.sqrt (display.cardWidth ^ 2 + display.cardHeight ^ 2) / 2 ∧
    PHYSICS.REPEL_MULTIPLIER = 60 ∧
    PHYSICS.MIN_LINK_DISTANCE = 30 ∧
    PHYSICS.LINK_STRENGTH_MULTIPLIER = 0.3 ∧
    PHYSICS.CENTER_MULTIPLIER = 0.3 ∧
    (forces.repelForce = 0 → (startForceLayoutParams forces display).repelStrength = 0) ∧
    (forces.linkDistance < 30 → (startForceLayoutParams forces display).linkDistance = 30) := by
  refine ⟨rfl, rfl, rfl, rfl, rfl, rfl, rfl, rfl, rfl, fun h => ?_, fun h => ?_⟩
  · show -forces.repelForce * PHYSICS.REPEL_MULTIPLIER = 0
    rw [h, neg_zero, zero_mul]
  · show max forces.linkDistance PHYSICS.MIN_LINK_DISTANCE = 30
    exact max_eq_right h.le

/-- Witness for claim C7 at concrete inputs: a zero repel slider yields zero
repulsion, and a link distance of 10 clamps to 30. -/
theorem startForceLayoutParams_spec_witness :
    (startForceLayoutParams
      { centerForce := 0.3, repelForce := 0, linkForce := 0.3, linkDistance := 10 }
      DEFAULT_DISPLAY).repelStrength = 0 ∧
    (startForceLayoutParams
      { centerForce := 0.3, repelForce := 0, linkForce := 0.3, linkDistance := 10 }
      DEFAULT_DISPLAY).linkDistance = 30 :=
  ⟨(startForceLayoutParams_spec
      { centerForce := 0.3, repelForce := 0, linkForce := 0.3, linkDistance := 10 }
      DEFAULT_DISPLAY).2.2.2.2.2.2.2.2.2.1 rfl,
   (startForceLayoutParams_spec
      { centerForce := 0.3, repelForce := 0, linkForce := 0.3, linkDistance := 10 }
      DEFAULT_DISPLAY).2.2.2.2.2.2.2.2.2.2 (by norm_num)⟩

/-- Claim C8: each slider reset sets exactly its own field to the documented
default and leaves every other field of the display and force settings
unchanged. -/
theorem reset_single_field_spec (d : DisplaySettings) (f : ForceSettings) :
    ((resetCardWidth d).cardWidth = 200 ∧
      (resetCardWidth d).nodeSize = d.nodeSize ∧
      (resetCardWidth d).linkThickness = d.linkThickness ∧
      (resetCardWidth d).showArrows = d.showArrows ∧
      (resetCardWidth d).showOrphans = d.showOrphans ∧
      (resetCardWidth d).cardHeight = d.cardHeight ∧
      (resetCardWidth d).snippetLength = d.snippetLength) ∧
    ((resetCardHeight d).cardHeight = 120 ∧
      (resetCardHeight d).nodeSize = d.nodeSize ∧
      (resetCardHeight d).linkThickness = d.linkThickness ∧
      (resetCardHeight d).showArrows = d.showArrows ∧
      (resetCardHeight d).showOrphans = d.showOrphans ∧
      (resetCardHeight d).cardWidth = d.cardWidth ∧
      (resetCardHeight d).snippetLength = d.snippetLength) ∧
    ((resetSnippetLength d).snippetLength = 150 ∧
      (resetSnippetLength d).nodeSize = d.nodeSize ∧
      (resetSnippetLength d).linkThickness = d.linkThickness ∧
      (resetSnippetLength d).showArrows = d.showArrows ∧
      (resetSnippetLength d).showOrphans = d.showOrphans ∧
      (resetSnippetLength d).cardWidth = d.cardWidth ∧
      (resetSnippetLength d).cardHeight = d.cardHeight) ∧
    ((resetLinkThickness d).linkThickness = 3 ∧
      (resetLinkThickness d).nodeSize = d.nodeSize ∧
      (resetLinkThickness d).showArrows = d.showArrows ∧
      (resetLinkThickness d).showOrphans = d.showOrphans ∧
      (resetLinkThickness d).cardWidth = d.cardWidth ∧
      (resetLinkThickness d).cardHeight = d.cardHeight ∧
      (resetLinkThickness d).snippetLength = d.snippetLength) ∧
    ((resetCenterForce f).centerForce = 0.3 ∧
      (resetCenterForce f).repelForce = f.repelForce ∧
      (resetCenterForce f).linkForce = f.linkForce ∧
      (resetCenterForce f).linkDistance = f.linkDistance) ∧
    ((resetRepelForce f).repelForce = 30 ∧
      (resetRepelForce f).centerForce = f.centerForce ∧
      (resetRepelForce f).linkForce = f.linkForce ∧
      (resetRepelForce f).linkDistance = f.linkDistance) ∧
    ((resetLinkForce f).linkForce = 0.3 ∧
      (resetLinkForce f).centerForce = f.centerForce ∧
      (resetLinkForce f).repelForce = f.repelForce ∧
      (resetLinkForce f).linkDistance = f.linkDistance) ∧
    ((resetLinkDistance f).linkDistance = 100 ∧
      (resetLinkDistance f).centerForce = f.centerForce ∧
      (resetLinkDistance f).repelForce = f.repelForce ∧
      (resetLinkDistance f).linkForce = f.linkForce) :=
  ⟨⟨rfl, rfl, rfl, rfl, rfl, rfl, rfl⟩,
   ⟨rfl, rfl, rfl, rfl, rfl, rfl, rfl⟩,
   ⟨rfl, rfl, rfl, rfl, rfl, rfl, rfl⟩,
   ⟨rfl, rfl, rfl, rfl, rfl, rfl, rfl⟩,
   ⟨rfl, rfl, rfl, rfl⟩,
   ⟨rfl, rfl, rfl, rfl⟩,
   ⟨rfl, rfl, rfl, rfl⟩,
   ⟨rfl, rfl, rfl, rfl⟩⟩

/-- Claim C9: the result of matchesQuery depends only on the set of terms —
two term sequences with the same members give the same result on every
document, despite the short-circuit evaluation order. -/
theorem matchesQuery_set_invariant (d : SearchableDocument) (s t : List SearchTerm)
    (h : ∀ x, x ∈ s ↔ x ∈ t) : matchesQuery d s = matchesQuery d t := by
  have key : matchesQuery d s = true ↔ matchesQuery d t = true := by
    rw [matchesQuery_eq_true_iff, matchesQuery_eq_true_iff]
    constructor
    · intro hall x hx
      exact hall x ((h x).mpr hx)
    · intro hall x hx
      exact hall x ((h x).mp hx)
  cases ht' : matchesQuery d t with
  | true => exact key.mpr ht'
  | false =>
    cases hs' : matchesQuery d s with
    | false => rfl
    | true => exact absurd (key.mp hs') (by simp [ht'])

/-- Witness for claim C9 at concrete inputs: reordering and duplicating the
terms of a query leaves the match result unchanged. -/
theorem matchesQuery_set_invariant_witness :
    (∀ x : SearchTerm,
      x ∈ [{ type := SearchTermType.text, value := "a", negated := false },
           { type := SearchTermType.tag, value := "b", negated := true }] ↔
      x ∈ [{ type := SearchTermType.tag, value := "b", negated := true },
           { type := SearchTermType.text, value := "a", negated := false },
           { type := SearchTermType.text, value := "a", negated := false }]) ∧
    matchesQuery { path := "a/x", aliases := [], tags := ["c"] }
      [{ type := SearchTermType.text, value := "a", negated := false },
       { type := SearchTermType.tag, value := "b", negated := true }] =
    matchesQuery { path := "a/x", aliases := [], tags := ["c"] }
      [{ type := SearchTermType.tag, value := "b", negated := true },
       { type := SearchTermType.text, value := "a", negated := false },
       { type := SearchTermType.text, value := "a", negated := false }] := by
  have hmem : ∀ x : SearchTerm,
      x ∈ [{ type := SearchTermType.text, value := "a", negated := false },
           { type := SearchTermType.tag, value := "b", negated := true }] ↔
      x ∈ [{ type := SearchTermType.tag, value := "b", negated := true },
           { type := SearchTermType.text, value := "a", negated := false },
           { type := SearchTermType.text, value := "a", negated := false }] := by
    intro x
    simp only [List.mem_cons, List.not_mem_nil, or_false]
    tauto
  exact ⟨hmem, matchesQuery_set_invariant _ _ _ hmem⟩

/-- Claim C10: marker recognition is exact and case-sensitive — a token with
an upper-case marker spelling parses as a single text term whose value is
the entire token lowercased, marker and colon included, while the exact
lower-case spellings parse as tag and path terms. -/
theorem parseQuery_marker_case_sensitive :
    parseQuery "TAG:foo" =
      [{ type := SearchTermType.text, value := "tag:foo", negated := false }] ∧
    parseQuery "Path:x" =
      [{ type := SearchTermType.text, value := "path:x", negated := false }] ∧
    parseQuery "tag:foo" =
      [{ type := SearchTermType.tag, value := "foo", negated := false }] ∧
    parseQuery "path:x" =
      [{ type := SearchTermType.path, value := "x", negated := false }] :=
  ⟨by decide, by decide, by decide, by decide⟩

end Supergraph
